import Mathlib

/-!
Verification of the document-validation pipeline in `app.py`.

The development shallowly embeds the Python source:

* `extract_text` (app.py lines 21-35) over a model of staged files,
* `validate_text`'s prompt construction and tolerant JSON parsing
  (app.py lines 37-107), with the external `chat` call abstracted as an
  oracle `String → String` from prompt to raw model reply,
* the `/validate` request handler (app.py lines 114-192) as a pure
  function from a request model and the oracle to an HTTP-level result,
  threading the state of the transient upload directory explicitly and
  recording an event trace (stagings, extraction attempts, deletions) so
  that resource-cleanup claims are observable.

Python built-ins are modelled as follows: `str.strip` as `pyStrip` over
the six ASCII whitespace characters Python strips in the ASCII range;
`int(...)` as `pyInt` (whitespace, optional sign, decimal digits;
digit-group underscores are not modelled as no behaviour here depends on
them); `json.loads` as `json_loads`, a fuel-bounded JSON parser over the
character list (numbers are decoded exactly into `ℚ` instead of IEEE
floats; `\u` escapes decode a single code unit without surrogate
pairing); the rendering `str(int(s)/100)` of the threshold as
`pyFloatStr100` (exact decimal with trailing zeros stripped, which
matches CPython's shortest round-trip repr for these values).
-/

/-- Values produced by `json.loads`: the JSON data model. Numbers are
represented exactly as rationals. -/
inductive PyJson where
  | null
  | bool (b : Bool)
  | num (q : ℚ)
  | str (s : String)
  | arr (xs : List PyJson)
  | obj (fields : List (String × PyJson))

/-- Whitespace characters accepted between JSON tokens. -/
def jsonWs (c : Char) : Bool :=
  c = ' ' || c = '\t' || c = '\n' || c = '\r'

/-- Drop leading JSON whitespace. -/
def skipWs (cs : List Char) : List Char :=
  cs.dropWhile jsonWs

/-- Consume an expected literal sequence of characters, or fail. -/
def expectChars : List Char → List Char → Option (List Char)
  | [], cs => some cs
  | p :: ps, c :: cs => if c = p then expectChars ps cs else none
  | _ :: _, [] => none

/-- Decimal digit test. -/
def isDigitCh (c : Char) : Bool := c.isDigit

/-- Value of one decimal digit (code point 48 is the zero digit). -/
def digitVal (c : Char) : Nat := c.toNat - 48

/-- Read a maximal nonempty run of decimal digits as a natural number. -/
def readDigits : List Char → Option (Nat × Nat × List Char)
  | cs =>
    let run := cs.takeWhile isDigitCh
    if run.isEmpty then none
    else some (run.foldl (fun acc c => acc * 10 + digitVal c) 0, run.length, cs.dropWhile isDigitCh)

/-- Hexadecimal digit value, if any, computed on code points: digits are
48-57, lowercase a-f are 97-102, uppercase A-F are 65-70. -/
def hexVal (c : Char) : Option Nat :=
  let n := c.toNat
  if 48 ≤ n ∧ n ≤ 57 then some (n - 48)
  else if 97 ≤ n ∧ n ≤ 102 then some (n - 87)
  else if 65 ≤ n ∧ n ≤ 70 then some (n - 55)
  else none

/-- Decode one JSON string escape sequence (after the backslash). -/
def readEscape : List Char → Option (Char × List Char)
  | '"' :: cs => some ('"', cs)
  | '\\' :: cs => some ('\\', cs)
  | '/' :: cs => some ('/', cs)
  | 'b' :: cs => some ('\x08', cs)
  | 'f' :: cs => some ('\x0c', cs)
  | 'n' :: cs => some ('\n', cs)
  | 'r' :: cs => some ('\r', cs)
  | 't' :: cs => some ('\t', cs)
  | 'u' :: a :: b :: c :: d :: cs => do
    let va ← hexVal a
    let vb ← hexVal b
    let vc ← hexVal c
    let vd ← hexVal d
    let n := ((va * 16 + vb) * 16 + vc) * 16 + vd
    some (Char.ofNat n, cs)
  | _ => none

/-- Read the body of a JSON string after the opening quote, up to and
including the closing quote. Fuel-bounded structural recursion. -/
def readStringBody : Nat → List Char → Option (String × List Char)
  | 0, _ => none
  | _ + 1, [] => none
  | fuel + 1, c :: cs =>
    if c = '"' then some ("", cs)
    else if c = '\\' then do
      let (e, cs') ← readEscape cs
      let (rest, cs'') ← readStringBody fuel cs'
      some (String.mk (e :: rest.data), cs'')
    else do
      let (rest, cs') ← readStringBody fuel cs
      some (String.mk (c :: rest.data), cs')

/-- Read a JSON number (integer part, optional fraction, optional
exponent) exactly into `ℚ`. -/
def readNumber (cs : List Char) : Option (ℚ × List Char) := do
  let (neg, cs₁) :=
    match cs with
    | '-' :: rest => (true, rest)
    | _ => (false, cs)
  let (ip, _, cs₂) ← readDigits cs₁
  let (frac, cs₃) :=
    match cs₂ with
    | '.' :: rest =>
      match readDigits rest with
      | some (f, k, rest') => (some ((f : ℚ) / ((10 : ℚ) ^ k)), rest')
      | none => (none, cs₂)
    | _ => (some 0, cs₂)
  match frac with
  | none => none
  | some f =>
    let base : ℚ := (ip : ℚ) + f
    let (expo, cs₄) :=
      match cs₃ with
      | e :: rest =>
        if e = 'e' ∨ e = 'E' then
          let (esign, rest₁) :=
            match rest with
            | '-' :: r => ((-1 : Int), r)
            | '+' :: r => ((1 : Int), r)
            | _ => ((1 : Int), rest)
          match readDigits rest₁ with
          | some (ev, _, rest₂) => (some (esign * (ev : Int)), rest₂)
          | none => (none, cs₃)
        else (some 0, cs₃)
      | [] => (some 0, cs₃)
    match expo with
    | none => none
    | some e =>
      let scaled : ℚ := base * (10 : ℚ) ^ e
      some (if neg then -scaled else scaled, cs₄)

mutual

/-- Parse one JSON value (fuel-bounded). -/
def parseVal : Nat → List Char → Option (PyJson × List Char)
  | 0, _ => none
  | fuel + 1, cs =>
    match skipWs cs with
    | [] => none
    | c :: cs' =>
      if c = 'n' then do
        let rest ← expectChars ['u', 'l', 'l'] cs'
        some (.null, rest)
      else if c = 't' then do
        let rest ← expectChars ['r', 'u', 'e'] cs'
        some (.bool true, rest)
      else if c = 'f' then do
        let rest ← expectChars ['a', 'l', 's', 'e'] cs'
        some (.bool false, rest)
      else if c = '"' then do
        let (s, rest) ← readStringBody (cs'.length + 1) cs'
        some (.str s, rest)
      else if c = '[' then
        match skipWs cs' with
        | ']' :: rest => some (.arr [], rest)
        | _ => do
          let (v, rest) ← parseVal fuel cs'
          let (vs, rest') ← parseArrTail fuel rest
          some (.arr (v :: vs), rest')
      else if c = '\x7b' then
        match skipWs cs' with
        | '\x7d' :: rest => some (.obj [], rest)
        | _ => do
          let (kv, rest) ← parseMember fuel cs'
          let (kvs, rest') ← parseObjTail fuel rest
          some (.obj (kv :: kvs), rest')
      else if c = '-' ∨ isDigitCh c then do
        let (q, rest) ← readNumber (c :: cs')
        some (.num q, rest)
      else none

/-- Parse the remainder of a JSON array after one element: either a
closing bracket or a comma followed by more elements. -/
def parseArrTail : Nat → List Char → Option (List PyJson × List Char)
  | 0, _ => none
  | fuel + 1, cs =>
    match skipWs cs with
    | ']' :: rest => some ([], rest)
    | ',' :: rest => do
      let (v, rest') ← parseVal fuel rest
      let (vs, rest'') ← parseArrTail fuel rest'
      some (v :: vs, rest'')
    | _ => none

/-- Parse one `"key": value` member of a JSON object. -/
def parseMember : Nat → List Char → Option ((String × PyJson) × List Char)
  | 0, _ => none
  | fuel + 1, cs =>
    match skipWs cs with
    | '"' :: cs' => do
      let (k, rest) ← readStringBody (cs'.length + 1) cs'
      match skipWs rest with
      | ':' :: rest' => do
        let (v, rest'') ← parseVal fuel rest'
        some ((k, v), rest'')
      | _ => none
    | _ => none

/-- Parse the remainder of a JSON object after one member. -/
def parseObjTail : Nat → List Char → Option (List (String × PyJson) × List Char)
  | 0, _ => none
  | fuel + 1, cs =>
    match skipWs cs with
    | '\x7d' :: rest => some ([], rest)
    | ',' :: rest => do
      let (kv, rest') ← parseMember fuel rest
      let (kvs, rest'') ← parseObjTail fuel rest'
      some (kv :: kvs, rest'')
    | _ => none

end

/-- Model of Python's `json.loads`: parse the whole string as a single
JSON value with only trailing whitespace allowed, returning `none` where
`json.loads` raises. The fuel is generous for the input length, so it
never cuts off a parse that consumes input. -/
def json_loads (s : String) : Option PyJson := do
  let (v, rest) ← parseVal (4 * s.data.length + 8) s.data
  if (skipWs rest).isEmpty then some v else none

/-- Fallback verdict substituted on a JSON decode failure
(app.py line 107). -/
def fallbackVerdict : PyJson :=
  .obj [("valid", .bool false), ("reasons", .arr [.str "Invalid JSON returned from model"])]

/-- Tolerant parsing of the raw model reply (app.py lines 103-107):
`json.loads` inside `try`, with any exception mapped to the fallback
verdict. A successful decode is returned as-is, with no schema check. -/
def parse_model_reply (content : String) : PyJson :=
  match json_loads content with
  | some v => v
  | none => fallbackVerdict

/-- Whether a JSON value matches the two-field `ValidOrNot` schema
`(valid : bool, reasons : list of strings)` (app.py lines 15-17). -/
def matchesVerdictSchema : PyJson → Bool
  | .obj [("valid", .bool _), ("reasons", .arr rs)] =>
    rs.all fun r => match r with | .str _ => true | _ => false
  | _ => false


/-! ## Files and text extraction (app.py lines 21-35) -/

/-- What the extraction libraries see when opening a staged file:
a PDF as its ordered list of page texts (read through `fitz`), a DOCX as
its ordered list of paragraph texts (read through `docx`), or bytes that
the library for the file's declared extension cannot open, in which case
opening raises an exception carrying a message. -/
inductive DocContent where
  | pdfPages (pages : List String)
  | docxParas (paras : List String)
  | unreadable (msg : String)

/-- An uploaded file: its client-supplied filename and its content as the
extraction libraries would decode it. -/
structure UploadedFile where
  filename : String
  content : DocContent

/-- Model of `pathlib.Path.suffix` on a file name: the text from the last
dot onward, or empty when the last dot is absent, is the first character
(a pure dotfile), or is the final character. -/
def pathSuffix (name : String) : String :=
  let rev := name.data.reverse
  let extRev := rev.takeWhile fun c => c ≠ '.'
  if extRev.length = rev.length then ""
  else if extRev.isEmpty then ""
  else if extRev.length + 1 = rev.length then ""
  else String.mk ('.' :: extRev.reverse)

/-- ASCII lowercasing of a string, modelling Python's `str.lower()` on
the extension names compared in `extract_text`. -/
def lowerStr (s : String) : String :=
  String.mk (s.data.map Char.toLower)

/-- The result of `extract_text` (app.py lines 21-35), as the caller
observes it: normal return of a text (`ok (some _)`), normal return of
Python `None` for an unhandled extension (`ok none`), or a raised
exception (`error`). -/
def extract_text (f : UploadedFile) : Except String (Option String) :=
  let suffix := lowerStr (pathSuffix f.filename)
  if suffix = ".pdf" then
    match f.content with
    | .pdfPages pages => .ok (some (pages.foldl (· ++ ·) ""))
    | .unreadable msg => .error msg
    | .docxParas _ => .error "cannot open broken document"
  else if suffix = ".docx" then
    match f.content with
    | .docxParas paras => .ok (some (String.intercalate "\n" paras))
    | .unreadable msg => .error msg
    | .pdfPages _ => .error "file is not a Word file"
  else
    .ok none


/-! ## Python string and number primitives used by the handler -/

/-- Whitespace characters stripped by Python's `str.strip()` in the
ASCII range. -/
def isPyWs (c : Char) : Bool :=
  c = ' ' || c = '\t' || c = '\n' || c = '\r' || c = '\x0b' || c = '\x0c'

/-- Strip leading and trailing whitespace from a character list. -/
def stripChars (cs : List Char) : List Char :=
  ((cs.dropWhile isPyWs).reverse.dropWhile isPyWs).reverse

/-- Model of Python's `str.strip()`. -/
def pyStrip (s : String) : String :=
  String.mk (stripChars s.data)


/-- Model of Python's `int(...)` on a string: optional surrounding
whitespace, an optional sign, then a nonempty run of decimal digits;
anything else raises `ValueError`, modelled as `none`. -/
def pyInt (s : String) : Option Int :=
  let cs := stripChars s.data
  let (sign, ds) : Int × List Char :=
    match cs with
    | '-' :: rest => (-1, rest)
    | '+' :: rest => (1, rest)
    | _ => (1, cs)
  if ds.isEmpty ∨ ¬ ds.all isDigitCh then none
  else some (sign * (ds.foldl (fun acc c => acc * 10 + digitVal c) 0 : Nat))


/-- Rendering of `str(int(s)/100)` in the prompt f-string: the exact
decimal expansion of `n/100` with trailing fractional zeros stripped and
at least one fractional digit kept. This equals CPython's shortest
round-trip float repr for every such value in the handler's range. -/
def pyFloatStr100 (n : Int) : String :=
  let sign := if n < 0 then "-" else ""
  let m := n.natAbs
  let ip := m / 100
  let fp := m % 100
  if fp = 0 then sign ++ toString ip ++ ".0"
  else if fp % 10 = 0 then sign ++ toString ip ++ "." ++ toString (fp / 10)
  else sign ++ toString ip ++ "." ++ (if fp < 10 then "0" else "") ++ toString fp


/-- Threshold derivation from the `precent` form field
(app.py line 138): `int(precent)/100`, as an exact rational; `none`
models the uncaught `ValueError` of a failed `int(...)`. -/
def precentToThreshold (s : String) : Option ℚ :=
  (pyInt s).map fun n => (n : ℚ) / 100

/-! ## Prompt construction and the model round trip (app.py lines 37-107)

The prompt f-string is transcribed piecewise; literal braces of the
output-format section are written with hexadecimal escapes, the
interpolation slots become the concatenation points. -/

/-- The 50-character separator rule drawn between prompt sections. -/
def sepLine : String := String.mk (List.replicate 50 '=')

/-- Placeholder block used when no valid-example text was supplied
(app.py line 39). -/
def validPlaceholder : String := "لا توجد أمثلة صالحة."

/-- Placeholder block used when no invalid-example text was supplied
(app.py line 40). -/
def invalidPlaceholder : String := "لا توجد أمثلة غير صالحة."

/-- Prompt text from the opening up to the requirements slot. -/
def promptHeader : String := "
You are an expert document validator that only responds in arabic.

The user supplied:
1. Validation requirements (mandatory)
2. Optional examples of valid documents
3. Optional examples of invalid documents

Your task is to evaluate the document denoted by \" at the start and end leniently:
- Consider a requirement satisfied if it is mostly present.
- Only mark it missing if it is completely absent or clearly incorrect.
- If its missing give it a 0.
- Minor deviations, paraphrasing, or partial content are acceptable.

" ++ sepLine ++ "
📝 VALIDATION REQUIREMENTS
" ++ sepLine ++ "
"

/-- Prompt text between the requirements slot and the valid-examples
slot. -/
def promptValidHdr : String := "

" ++ sepLine ++ "
🟢 VALID EXAMPLES (optional)
" ++ sepLine ++ "
"

/-- Prompt text between the valid-examples slot and the invalid-examples
slot. -/
def promptInvalidHdr : String := "

" ++ sepLine ++ "
🔴 INVALID EXAMPLES (optional)
" ++ sepLine ++ "
"

/-- Prompt text between the invalid-examples slot and the quoted document
slot. -/
def promptDocHdr : String := "

" ++ sepLine ++ "
📄 DOCUMENT TO VALIDATE
" ++ sepLine ++ "
"

/-- Prompt text between the quoted document slot and the line that states
the passing score. -/
def promptRulesHdr : String := "

" ++ sepLine ++ "
🎯 VALIDATION RULES
" ++ sepLine ++ "
• Compare the document strictly against the user\x27s requirements.
• Score each requirement:
  - 1 point = clearly satisfied.
  - 0 = missing or unclear.

• Final decision:
 - Score each requirement between 0 (missing) and 1 (fully satisfied)
 - Compute overall score = average of all requirement scores
"

/-- The line fragment that introduces the numeric passing threshold. -/
def scoreLead : String := " - Mark document as \"valid\" if overall score >= "

/-- Prompt text from just after the threshold slot to the end. -/
def promptTail : String := "
 - Include reasons explaining any missing or partially satisfied requirements
Output format (strict JSON):
\x7b
  \"valid\": true/false,
  \"reasons\": [\"reason 1\", \"reason 2\", ...]
\x7d
If valid, include one reason that is just your score such as \"الوثيقة صحيحة بنسبة **%\"
"

/-- Prompt assembly inside `validate_text` (app.py lines 39-95): the two
`or`-defaulted example blocks, then the f-string with its five
interpolation slots. `precentStr` is the f-string rendering of the
`precent` float. -/
def build_prompt (requirements valid_examples invalid_examples document_text precentStr : String) : String :=
  let valid_block := if valid_examples = "" then validPlaceholder else valid_examples
  let invalid_block := if invalid_examples = "" then invalidPlaceholder else invalid_examples
  promptHeader ++ requirements ++ promptValidHdr ++ valid_block ++ promptInvalidHdr ++
    invalid_block ++ promptDocHdr ++ ("\"" ++ document_text ++ "\"") ++ promptRulesHdr ++
    (scoreLead ++ precentStr) ++ promptTail

/-- The whole of `validate_text` (app.py lines 37-107): build the prompt,
send it to the model — abstracted as an `oracle` from prompt text to the
raw reply text of `response.message.content` — and parse the reply
tolerantly. -/
def validate_text (requirements valid_examples invalid_examples document_text precentStr : String)
    (oracle : String → String) : PyJson :=
  parse_model_reply (oracle (build_prompt requirements valid_examples invalid_examples document_text precentStr))

/-! ## The `/validate` request handler (app.py lines 114-192) -/

/-- A `POST /validate` request as the handler reads it: the two form
fields (with Flask's `""` default for `requirements` and for `precent`),
the optional document file, and the two optional example-file lists.
`none` for an example list models the field being absent from
`request.files`; a `document` field whose `FileStorage` is falsy (empty
filename) is modelled by `some f` with `f.filename = ""`. -/
structure ValidateRequest where
  requirements : String
  document : Option UploadedFile
  precent : String
  valid_examples : Option (List UploadedFile)
  invalid_examples : Option (List UploadedFile)

/-- Observable filesystem events of one request, recorded so that
staging, extraction attempts and deletions are visible in order. -/
inductive Ev where
  | staged (name : String)
  | extracted (name : String)
  | unlinked (name : String)
deriving DecidableEq, Repr

/-- State of the transient upload directory during one request: the names
currently present, plus the event trace. -/
structure St where
  files : List String
  trace : List Ev
deriving DecidableEq, Repr

/-- The upload directory at the start of a request, before any staging. -/
def St.init : St := ⟨[], []⟩

/-- Effect of `f.save(str(path))`: the file is present under its name
afterwards (overwriting any previous file of that name). -/
def St.save (s : St) (n : String) : St :=
  ⟨if n ∈ s.files then s.files else s.files ++ [n], s.trace ++ [.staged n]⟩

/-- Effect of `path.unlink(missing_ok=True)`: the file is removed, and an
already-absent file is tolerated. -/
def St.unlink (s : St) (n : String) : St :=
  ⟨s.files.erase n, s.trace ++ [.unlinked n]⟩

/-- Record that `extract_text` was invoked on a staged file. -/
def St.noteExtract (s : St) (n : String) : St :=
  ⟨s.files, s.trace ++ [.extracted n]⟩

/-- The HTTP-level outcome of the handler: a `jsonify` response with a
status code, or an exception escaping the handler uncaught. -/
inductive PipeResult where
  | response (status : Nat) (body : PyJson)
  | uncaught (msg : String)

/-- An error response body `jsonify({"valid": False, "reasons": [msg]})`. -/
def errVerdict (msg : String) : PyJson :=
  .obj [("valid", .bool false), ("reasons", .arr [.str msg])]

/-- Reason string for a missing `requirements` field (app.py line 121). -/
def msgNoRequirements : String := "لم يتم إدخال متطلبات التحقق."

/-- Reason string for a missing document file (app.py line 129). -/
def msgNoDocument : String := "لم يتم رفع المستند المراد التحقق منه."

/-- Prefix of the reason for a failure while processing a valid example
(app.py line 155). -/
def msgValidExamplePrefix : String := "خطأ أثناء معالجة مثال صحيح: "

/-- Prefix of the reason for a failure while processing an invalid
example (app.py line 170). -/
def msgInvalidExamplePrefix : String := "خطأ أثناء معالجة مثال غير صحيح: "

/-- Prefix of the reason for a failure reading the main document
(app.py line 180). -/
def msgDocReadPrefix : String := "تعذر قراءة المستند: "

/-- Message of the `TypeError` raised by `extract_text(path) + "..."`
when `extract_text` returns `None` (CPython wording, quote marks around
the type names elided). -/
def msgNonePlusStr : String := "unsupported operand type(s) for +: NoneType and str"

/-- Separator appended after each accumulated example text
(app.py lines 150 and 165). -/
def exampleSep : String := "\n\n---\n\n"

/-- One example-upload loop (app.py lines 144-156 and 159-171): entries
with an empty filename are skipped; any other entry is staged, extracted,
appended to the accumulator with the separator, and unlinked. An
exception inside the `try` — a raising `extract_text`, or the `TypeError`
from concatenating its `None` return — is answered by an early HTTP 500
return whose reason is the given prefix followed by `str(e)`; the staged file of the failing
entry is not unlinked on that path. -/
def exLoop (pre : String) : List UploadedFile → String → St → Except (String × St) (String × St)
  | [], acc, s => .ok (acc, s)
  | f :: rest, acc, s =>
    if f.filename = "" then exLoop pre rest acc s
    else
      let s₁ := (s.save f.filename).noteExtract f.filename
      match extract_text f with
      | .error e => .error (pre ++ e, s₁)
      | .ok none => .error (pre ++ msgNonePlusStr, s₁)
      | .ok (some t) => exLoop pre rest (acc ++ t ++ exampleSep) (s₁.unlink f.filename)

/-- Rendering of the extracted document text at the f-string slot:
Python formats the `None` of an unsupported format as the text `None`. -/
def optPyStr : Option String → String
  | none => "None"
  | some t => t

/-- The `validate` handler (app.py lines 114-192) as a function of the
request and the model oracle, returning the HTTP-level result and the
final upload-directory state. Control flow follows the source line by
line: strip-and-check `requirements`; check the document `FileStorage`'s
truthiness; save the document; convert `precent` with `int(...)` (a
failure is an uncaught `ValueError`); run the two example loops; extract
the main document inside `try`, unlinking it on both outcomes; finally
call `validate_text` and return its verdict with status 200. -/
def validate (req : ValidateRequest) (oracle : String → String) : PipeResult × St :=
  let requirements := pyStrip req.requirements
  if requirements = "" then (.response 400 (errVerdict msgNoRequirements), St.init)
  else
    match req.document with
    | none => (.response 400 (errVerdict msgNoDocument), St.init)
    | some doc =>
      if doc.filename = "" then (.response 400 (errVerdict msgNoDocument), St.init)
      else
        let s₁ := St.init.save doc.filename
        match pyInt req.precent with
        | none => (.uncaught "ValueError: invalid literal for int() with base 10", s₁)
        | some n =>
          let vres : Except (String × St) (String × St) :=
            match req.valid_examples with
            | none => .ok ("", s₁)
            | some fs => exLoop msgValidExamplePrefix fs "" s₁
          match vres with
          | .error (msg, s₂) => (.response 500 (errVerdict msg), s₂)
          | .ok (valid_examples_text, s₂) =>
            let ires : Except (String × St) (String × St) :=
              match req.invalid_examples with
              | none => .ok ("", s₂)
              | some fs => exLoop msgInvalidExamplePrefix fs "" s₂
            match ires with
            | .error (msg, s₃) => (.response 500 (errVerdict msg), s₃)
            | .ok (invalid_examples_text, s₃) =>
              let s₄ := s₃.noteExtract doc.filename
              match extract_text doc with
              | .error e =>
                (.response 500 (errVerdict (msgDocReadPrefix ++ e)), s₄.unlink doc.filename)
              | .ok dt =>
                let s₅ := s₄.unlink doc.filename
                let result := validate_text requirements valid_examples_text
                  invalid_examples_text (optPyStr dt) (pyFloatStr100 n) oracle
                (.response 200 result, s₅)

/-! ## Derived observations used by the statements -/

/-- Substring occurrence: `t` occurs contiguously inside `s`. -/
def occursIn (t s : String) : Prop :=
  ∃ a b, s = a ++ t ++ b

/-- Status code of a handler outcome, `none` for an uncaught exception. -/
def statusOf : PipeResult → Option Nat
  | .response status _ => some status
  | .uncaught _ => none

/-- Whether the handler outcome is an exception escaping to Flask's
generic error page rather than a `jsonify` response. -/
def isUncaught : PipeResult → Bool
  | .response _ _ => false
  | .uncaught _ => true

/-- A document file is attached in the sense of the handler's truthiness
check: the field is present and its filename is nonempty. -/
def docAttached (req : ValidateRequest) : Prop :=
  ∃ d, req.document = some d ∧ d.filename ≠ ""

/-- A well-formed PDF document upload used by the concrete scenarios. -/
def docPdf : UploadedFile := ⟨"doc.pdf", .pdfPages ["hello"]⟩

/-- A plain-text upload, whose extension `extract_text` does not handle. -/
def exTxt : UploadedFile := ⟨"ex.txt", .pdfPages ["x"]⟩

/-- A deterministic model stub returning a fixed well-formed verdict. -/
def okOracle : String → String := fun _ => "\x7b\"valid\": true, \"reasons\": []\x7d"

/-- A baseline well-formed request: requirements, a PDF document, a 70%
threshold, no example uploads. -/
def reqBase : ValidateRequest := ⟨"r", some docPdf, "70", none, none⟩

/-! ## Helper lemmas -/

theorem str_append_empty (s : String) : s ++ "" = s := by
  cases s with
  | mk data => show String.mk (data ++ []) = String.mk data
               rw [List.append_nil]

theorem occursIn_right (s t : String) : occursIn t (s ++ t) :=
  ⟨s, "", (str_append_empty (s ++ t)).symm⟩

theorem occursIn_append_left {t s : String} (u : String) (h : occursIn t s) :
    occursIn t (s ++ u) := by
  obtain ⟨a, b, rfl⟩ := h
  exact ⟨a, b ++ u, by simp [String.append_assoc]⟩

theorem occursIn_append_right {t u : String} (s : String) (h : occursIn t u) :
    occursIn t (s ++ u) := by
  obtain ⟨a, b, rfl⟩ := h
  exact ⟨s ++ a, b, by simp [String.append_assoc]⟩

theorem stripChars_eq (cs : List Char) :
    stripChars cs = List.rdropWhile isPyWs (cs.dropWhile isPyWs) := rfl

theorem stripChars_idem (cs : List Char) : stripChars (stripChars cs) = stripChars cs := by
  rw [stripChars_eq, stripChars_eq]
  have hdrop : (List.rdropWhile isPyWs (cs.dropWhile isPyWs)).dropWhile isPyWs
      = List.rdropWhile isPyWs (cs.dropWhile isPyWs) := by
    obtain ⟨t, ht⟩ := List.rdropWhile_prefix isPyWs (cs.dropWhile isPyWs)
    cases hB : List.rdropWhile isPyWs (cs.dropWhile isPyWs) with
    | nil => simp
    | cons b bs =>
      rw [hB] at ht
      have hA : cs.dropWhile isPyWs = b :: (bs ++ t) := by rw [← ht]; simp
      have hne : cs.dropWhile isPyWs ≠ [] := by rw [hA]; simp
      have hb := List.head_dropWhile_not isPyWs cs hne
      have hhead : (cs.dropWhile isPyWs).head hne = b := by simp [hA]
      rw [hhead] at hb
      simp [List.dropWhile_cons, hb]
  rw [hdrop, List.rdropWhile_idempotent]

theorem pyStrip_idem (s : String) : pyStrip (pyStrip s) = pyStrip s := by
  simp only [pyStrip]
  rw [stripChars_idem]

theorem stripChars_eq_nil_of_all_ws (cs : List Char) (h : ∀ c ∈ cs, isPyWs c) :
    stripChars cs = [] := by
  rw [stripChars_eq, List.dropWhile_eq_nil_iff.mpr h]
  simp

theorem pyStrip_eq_empty_of_all_ws (s : String) (h : ∀ c ∈ s.data, isPyWs c) :
    pyStrip s = "" := by
  simp only [pyStrip]
  rw [stripChars_eq_nil_of_all_ws s.data h]

/-! ## Claim C1: tolerant response parsing -/

/-- C1 counterexample: the raw reply `{}` is valid JSON that does not
match the two-field `{valid, reasons}` schema, yet parsing returns the
decoded empty object unchanged, not the fallback verdict. -/
theorem C1_counterexample :
    json_loads "\x7b\x7d" = some (PyJson.obj []) ∧
    matchesVerdictSchema (PyJson.obj []) = false ∧
    parse_model_reply "\x7b\x7d" = PyJson.obj [] ∧
    parse_model_reply "\x7b\x7d" ≠ fallbackVerdict := by
  refine ⟨rfl, rfl, rfl, ?_⟩
  intro h
  rw [show parse_model_reply "\x7b\x7d" = PyJson.obj [] from rfl] at h
  simp [fallbackVerdict] at h

/-- C1 amended: a raw reply that `json.loads` cannot decode yields
exactly the fallback verdict and the decoding error never propagates,
while a reply that decodes as any JSON value — schema-matching or not —
is returned as decoded. -/
theorem C1_fallback_on_decode_failure (content : String) :
    (json_loads content = none → parse_model_reply content = fallbackVerdict) ∧
    (∀ v, json_loads content = some v → parse_model_reply content = v) := by
  constructor
  · intro h
    simp [parse_model_reply, h]
  · intro v h
    simp [parse_model_reply, h]

/-- C1 witness: the amended theorem applied to a non-JSON reply and to a
schema-mismatched JSON reply. -/
theorem C1_fallback_on_decode_failure_witness :
    parse_model_reply "not json" = fallbackVerdict ∧
    parse_model_reply "true" = PyJson.bool true :=
  ⟨(C1_fallback_on_decode_failure "not json").1 rfl,
   (C1_fallback_on_decode_failure "true").2 (PyJson.bool true) rfl⟩

/-! ## Claim C7: text extraction -/

/-- C7: for a `.pdf` file the extraction returns the page texts
concatenated in page order; for a `.docx` file the paragraph texts joined
by newlines in order; for any other extension the typed `none` marker and
never a text. -/
theorem C7_extract_text_spec :
    (∀ name pages, lowerStr (pathSuffix name) = ".pdf" →
      extract_text ⟨name, .pdfPages pages⟩ = .ok (some (String.join pages))) ∧
    (∀ name paras, lowerStr (pathSuffix name) = ".docx" →
      extract_text ⟨name, .docxParas paras⟩ = .ok (some (String.intercalate "\n" paras))) ∧
    (∀ name content, lowerStr (pathSuffix name) ≠ ".pdf" →
      lowerStr (pathSuffix name) ≠ ".docx" →
      extract_text ⟨name, content⟩ = .ok none) := by
  refine ⟨?_, ?_, ?_⟩
  · intro name pages h
    simp [extract_text, h, String.join]
  · intro name paras h
    have hpdf : lowerStr (pathSuffix name) ≠ ".pdf" := by
      intro hp
      rw [hp] at h
      exact absurd h (by decide)
    simp [extract_text, h, hpdf]
  · intro name content hpdf hdocx
    simp [extract_text, hpdf, hdocx]

/-- C7 witness: the three conjuncts applied to concrete files. -/
theorem C7_extract_text_spec_witness :
    extract_text ⟨"a.pdf", .pdfPages ["x", "y"]⟩ = .ok (some (String.join ["x", "y"])) ∧
    extract_text ⟨"a.docx", .docxParas ["p", "q"]⟩ = .ok (some (String.intercalate "\n" ["p", "q"])) ∧
    extract_text ⟨"a.txt", .pdfPages ["x"]⟩ = .ok none :=
  ⟨C7_extract_text_spec.1 "a.pdf" ["x", "y"] rfl,
   C7_extract_text_spec.2.1 "a.docx" ["p", "q"] rfl,
   C7_extract_text_spec.2.2 "a.txt" (.pdfPages ["x"]) (by decide) (by decide)⟩

/-! ## Claim C9: empty-filename example entries are skipped -/

/-- C9: an example entry with an empty filename is skipped by the example
loop: no staging, no extraction attempt, no error — the loop continues on
the remaining entries from an unchanged accumulator and an unchanged
upload-directory state. -/
theorem C9_skip_empty_filename (pre : String) (f : UploadedFile)
    (rest : List UploadedFile) (acc : String) (s : St) (h : f.filename = "") :
    exLoop pre (f :: rest) acc s = exLoop pre rest acc s := by
  simp [exLoop, h]

/-- C9 witness: the skip equation at a concrete empty-filename entry. -/
theorem C9_skip_empty_filename_witness :
    exLoop "p" [⟨"", .pdfPages ["z"]⟩] "acc" St.init = exLoop "p" [] "acc" St.init :=
  C9_skip_empty_filename "p" ⟨"", .pdfPages ["z"]⟩ [] "acc" St.init rfl

/-- Unsupported-extension behaviour of `extract_text`: any file whose
lowercased suffix is neither `.pdf` nor `.docx` yields Python `None`. -/
theorem extract_text_unsupported (name : String) (content : DocContent)
    (hpdf : lowerStr (pathSuffix name) ≠ ".pdf")
    (hdocx : lowerStr (pathSuffix name) ≠ ".docx") :
    extract_text ⟨name, content⟩ = .ok none := by
  simp [extract_text, hpdf, hdocx]

/-! ## Claim C6: missing requirements or missing document -/

/-- C6: a request whose stripped requirements text is empty, or with no
document attached, is answered with HTTP 400 and a fixed nonempty reason,
and the upload directory is left in its initial state whose trace is
empty — nothing was staged and no extraction was attempted. -/
theorem C6_reject_missing_inputs (req : ValidateRequest) (oracle : String → String)
    (h : pyStrip req.requirements = "" ∨ ¬ docAttached req) :
    ∃ msg, (msg = msgNoRequirements ∨ msg = msgNoDocument) ∧ msg ≠ "" ∧
      validate req oracle = (.response 400 (errVerdict msg), St.init) := by
  by_cases hreq : pyStrip req.requirements = ""
  · exact ⟨msgNoRequirements, Or.inl rfl, by decide, by simp [validate, hreq]⟩
  · have hdoc : ¬ docAttached req := h.resolve_left hreq
    match hd : req.document with
    | none =>
      exact ⟨msgNoDocument, Or.inr rfl, by decide, by simp [validate, hreq, hd]⟩
    | some d =>
      have hfn : d.filename = "" := by
        by_contra hfn
        exact hdoc ⟨d, hd, hfn⟩
      exact ⟨msgNoDocument, Or.inr rfl, by decide, by simp [validate, hreq, hd, hfn]⟩

/-- C6 witness: an empty requirements field is rejected with 400 and an
untouched upload directory. -/
theorem C6_reject_missing_inputs_witness :
    ∃ msg, (msg = msgNoRequirements ∨ msg = msgNoDocument) ∧ msg ≠ "" ∧
      validate ⟨"", some docPdf, "70", none, none⟩ okOracle
        = (.response 400 (errVerdict msg), St.init) :=
  C6_reject_missing_inputs ⟨"", some docPdf, "70", none, none⟩ okOracle (Or.inl rfl)

/-! ## Claim C10: requirements are stripped before use -/

/-- C10: the requirements field is stripped before the emptiness check
and before any further use — a whitespace-only requirements field is
rejected exactly like an empty one, and pre-stripping the field does not
change the handler's behaviour on any request. -/
theorem C10_requirements_stripped (req : ValidateRequest) (oracle : String → String) :
    (req.requirements.data.all isPyWs = true →
      validate req oracle = (.response 400 (errVerdict msgNoRequirements), St.init)) ∧
    validate { req with requirements := pyStrip req.requirements } oracle = validate req oracle := by
  constructor
  · intro h
    have hws : ∀ c ∈ req.requirements.data, isPyWs c := List.all_eq_true.mp h
    have hempty : pyStrip req.requirements = "" := pyStrip_eq_empty_of_all_ws _ hws
    simp [validate, hempty]
  · simp only [validate, pyStrip_idem]

/-- C10 witness: a whitespace-only requirements field is rejected with
the missing-requirements reason. -/
theorem C10_requirements_stripped_witness :
    validate ⟨" \t ", some docPdf, "70", none, none⟩ okOracle
      = (.response 400 (errVerdict msgNoRequirements), St.init) :=
  (C10_requirements_stripped ⟨" \t ", some docPdf, "70", none, none⟩ okOracle).1 (by decide)

/-! ## Claim C8: prompt construction -/

/-- C8: the prompt — a pure function of its five inputs — embeds the
requirements verbatim, substitutes the fixed placeholder for an example
block exactly when that block's text is empty, wraps the document text in
the quote delimiter, and states the rendered threshold right after the
minimum-passing-score phrase. -/
theorem C8_build_prompt_spec (r v i d p : String) :
    occursIn r (build_prompt r v i d p) ∧
    (v = "" → occursIn validPlaceholder (build_prompt r v i d p)) ∧
    (v ≠ "" → occursIn v (build_prompt r v i d p)) ∧
    (i = "" → occursIn invalidPlaceholder (build_prompt r v i d p)) ∧
    (i ≠ "" → occursIn i (build_prompt r v i d p)) ∧
    occursIn ("\"" ++ d ++ "\"") (build_prompt r v i d p) ∧
    occursIn (scoreLead ++ p) (build_prompt r v i d p) := by
  refine ⟨?_, ?_, ?_, ?_, ?_, ?_, ?_⟩
  · exact ⟨promptHeader,
      promptValidHdr ++ (if v = "" then validPlaceholder else v) ++ promptInvalidHdr ++
        (if i = "" then invalidPlaceholder else i) ++ promptDocHdr ++ ("\"" ++ d ++ "\"") ++
        promptRulesHdr ++ (scoreLead ++ p) ++ promptTail,
      by simp [build_prompt, String.append_assoc]⟩
  · intro hv
    exact ⟨promptHeader ++ r ++ promptValidHdr,
      promptInvalidHdr ++ (if i = "" then invalidPlaceholder else i) ++ promptDocHdr ++
        ("\"" ++ d ++ "\"") ++ promptRulesHdr ++ (scoreLead ++ p) ++ promptTail,
      by simp [build_prompt, hv, String.append_assoc]⟩
  · intro hv
    exact ⟨promptHeader ++ r ++ promptValidHdr,
      promptInvalidHdr ++ (if i = "" then invalidPlaceholder else i) ++ promptDocHdr ++
        ("\"" ++ d ++ "\"") ++ promptRulesHdr ++ (scoreLead ++ p) ++ promptTail,
      by simp [build_prompt, hv, String.append_assoc]⟩
  · intro hi
    exact ⟨promptHeader ++ r ++ promptValidHdr ++ (if v = "" then validPlaceholder else v) ++
        promptInvalidHdr,
      promptDocHdr ++ ("\"" ++ d ++ "\"") ++ promptRulesHdr ++ (scoreLead ++ p) ++ promptTail,
      by simp [build_prompt, hi, String.append_assoc]⟩
  · intro hi
    exact ⟨promptHeader ++ r ++ promptValidHdr ++ (if v = "" then validPlaceholder else v) ++
        promptInvalidHdr,
      promptDocHdr ++ ("\"" ++ d ++ "\"") ++ promptRulesHdr ++ (scoreLead ++ p) ++ promptTail,
      by simp [build_prompt, hi, String.append_assoc]⟩
  · exact ⟨promptHeader ++ r ++ promptValidHdr ++ (if v = "" then validPlaceholder else v) ++
        promptInvalidHdr ++ (if i = "" then invalidPlaceholder else i) ++ promptDocHdr,
      promptRulesHdr ++ (scoreLead ++ p) ++ promptTail,
      by simp [build_prompt, String.append_assoc]⟩
  · exact ⟨promptHeader ++ r ++ promptValidHdr ++ (if v = "" then validPlaceholder else v) ++
        promptInvalidHdr ++ (if i = "" then invalidPlaceholder else i) ++ promptDocHdr ++
        ("\"" ++ d ++ "\"") ++ promptRulesHdr,
      promptTail,
      by simp [build_prompt, String.append_assoc]⟩

/-- C8 witness: the prompt properties at concrete inputs, with an empty
valid-examples block and a nonempty invalid-examples block. -/
theorem C8_build_prompt_spec_witness :
    occursIn "REQ" (build_prompt "REQ" "" "IEX" "DOC" "0.7") ∧
    occursIn validPlaceholder (build_prompt "REQ" "" "IEX" "DOC" "0.7") ∧
    occursIn "IEX" (build_prompt "REQ" "" "IEX" "DOC" "0.7") ∧
    occursIn ("\"" ++ "DOC" ++ "\"") (build_prompt "REQ" "" "IEX" "DOC" "0.7") ∧
    occursIn (scoreLead ++ "0.7") (build_prompt "REQ" "" "IEX" "DOC" "0.7") := by
  obtain ⟨h1, h2, _, _, h5, h6, h7⟩ := C8_build_prompt_spec "REQ" "" "IEX" "DOC" "0.7"
  exact ⟨h1, h2 rfl, h5 (by decide), h6, h7⟩

/-! ## Claim C3: unsupported primary document format -/

/-- C3 counterexample: a present document in an unsupported format (a
`.txt` file) is answered with HTTP 200, not 500 — no ExtractionError is
surfaced — though the staged document is indeed deleted. -/
theorem C3_counterexample :
    statusOf (validate ⟨"r", some ⟨"doc.txt", .pdfPages ["x"]⟩, "70", none, none⟩ okOracle).1
      = some 200 ∧
    statusOf (validate ⟨"r", some ⟨"doc.txt", .pdfPages ["x"]⟩, "70", none, none⟩ okOracle).1
      ≠ some 500 ∧
    (validate ⟨"r", some ⟨"doc.txt", .pdfPages ["x"]⟩, "70", none, none⟩ okOracle).2.files = [] := by
  refine ⟨rfl, by decide, rfl⟩

/-- C3 amended: for a request whose primary document has an unsupported
extension (and which passes the guards, parses its percentage, and whose
example loops succeed), `extract_text` returns the typed `None` marker
without raising; the pipeline does not answer 500 but proceeds to the
model call with the document text rendered as `None`, returns the model
verdict with status 200, and the staged document is still deleted. -/
theorem C3_unsupported_format_is_200 (requirements precent name : String)
    (content : DocContent) (vfs ifs : Option (List UploadedFile))
    (oracle : String → String) (n : Int) (vt it : String) (s₂ s₃ : St)
    (hreq : pyStrip requirements ≠ "") (hname : name ≠ "")
    (hpdf : lowerStr (pathSuffix name) ≠ ".pdf")
    (hdocx : lowerStr (pathSuffix name) ≠ ".docx")
    (hp : pyInt precent = some n)
    (hv : (match vfs with
           | none => Except.ok ("", St.init.save name)
           | some fs => exLoop msgValidExamplePrefix fs "" (St.init.save name)) = .ok (vt, s₂))
    (hi : (match ifs with
           | none => Except.ok ("", s₂)
           | some fs => exLoop msgInvalidExamplePrefix fs "" s₂) = .ok (it, s₃)) :
    validate ⟨requirements, some ⟨name, content⟩, precent, vfs, ifs⟩ oracle =
      (.response 200
        (validate_text (pyStrip requirements) vt it "None" (pyFloatStr100 n) oracle),
       (s₃.noteExtract name).unlink name) := by
  have hex : extract_text ⟨name, content⟩ = .ok none :=
    extract_text_unsupported name content hpdf hdocx
  simp only [validate, hreq, hname, hp, hv, hi, hex, optPyStr]
  simp

/-- C3 witness: the amended theorem at the concrete `.txt` request. -/
theorem C3_unsupported_format_is_200_witness :
    validate ⟨"r", some ⟨"doc.txt", .pdfPages ["x"]⟩, "70", none, none⟩ okOracle =
      (.response 200 (validate_text "r" "" "" "None" "0.7" okOracle),
       ((St.init.save "doc.txt").noteExtract "doc.txt").unlink "doc.txt") :=
  C3_unsupported_format_is_200 "r" "70" "doc.txt" (.pdfPages ["x"]) none none okOracle
    70 "" "" (St.init.save "doc.txt") (St.init.save "doc.txt")
    (by decide) (by decide) (by decide) (by decide) rfl rfl rfl

/-! ## Claim C4: no exception escapes the handler -/

/-- C4 counterexample: a request whose `precent` field is not numeric
makes `int(precent)` raise an uncaught `ValueError`, escaping the handler
with the document already staged — no structured JSON response is
produced. -/
theorem C4_counterexample :
    validate ⟨"r", some docPdf, "abc", none, none⟩ okOracle
      = (.uncaught "ValueError: invalid literal for int() with base 10",
         ⟨["doc.pdf"], [.staged "doc.pdf"]⟩) := rfl

/-- C4 amended: the handler's outcome escapes as an uncaught exception
exactly when the guards pass (nonempty stripped requirements, document
attached) and the `precent` field fails integer conversion; on every
other request — in particular whenever `precent` parses — the handler
returns a structured JSON response. -/
theorem C4_uncaught_iff_bad_precent (req : ValidateRequest) (oracle : String → String) :
    isUncaught (validate req oracle).1 = true ↔
      (pyStrip req.requirements ≠ "" ∧ docAttached req ∧ pyInt req.precent = none) := by
  by_cases hreq : pyStrip req.requirements = ""
  · simp [validate, hreq, isUncaught]
  · match hd : req.document with
    | none =>
      simp [validate, hreq, hd, isUncaught, docAttached]
    | some d =>
      by_cases hfn : d.filename = ""
      · simp [validate, hreq, hd, hfn, isUncaught, docAttached]
      · match hp : pyInt req.precent with
        | none =>
          simp [validate, hreq, hd, hfn, hp, isUncaught, docAttached]
        | some n =>
          simp only [validate, hd, hp]
          rw [if_neg hreq, if_neg hfn]
          split
          · simp [isUncaught, hp]
          · split
            · simp [isUncaught, hp]
            · split
              · simp [isUncaught, hp]
              · simp [isUncaught, hp]

/-- C4 witness: the amended characterisation applied in both directions —
a non-numeric `precent` escapes uncaught, a numeric one does not. -/
theorem C4_uncaught_iff_bad_precent_witness :
    isUncaught (validate ⟨"r", some docPdf, "abc", none, none⟩ okOracle).1 = true ∧
    isUncaught (validate reqBase okOracle).1 ≠ true := by
  constructor
  · exact (C4_uncaught_iff_bad_precent ⟨"r", some docPdf, "abc", none, none⟩ okOracle).mpr
      ⟨by decide, ⟨docPdf, rfl, by decide⟩, by decide⟩
  · intro h
    have := (C4_uncaught_iff_bad_precent reqBase okOracle).mp h
    exact absurd this.2.2 (by decide)

/-! ## Claim C5: threshold derivation -/

/-- C5 counterexample: the percentage 250 is accepted rather than
rejected, and the derived threshold 2.5 lies outside [0,1]; the request
proceeds to a 200 verdict. -/
theorem C5_counterexample :
    precentToThreshold "250" = some (((250 : Int) : ℚ) / 100) ∧
    ¬ (((250 : Int) : ℚ) / 100 ≤ 1) ∧
    statusOf (validate ⟨"r", some docPdf, "250", none, none⟩ okOracle).1 = some 200 := by
  refine ⟨rfl, by norm_num, rfl⟩

/-- C5 amended: the threshold is the accepted percentage divided by 100,
with no bounds check anywhere: it lies in [0,1] exactly when the
percentage lies in [0,100], and out-of-range percentages flow through
undetected. -/
theorem C5_threshold_unbounded (s : String) (n : Int) (h : pyInt s = some n) :
    precentToThreshold s = some ((n : ℚ) / 100) ∧
    ((0 : ℚ) ≤ (n : ℚ) / 100 ∧ (n : ℚ) / 100 ≤ 1 ↔ 0 ≤ n ∧ n ≤ 100) := by
  refine ⟨by simp [precentToThreshold, h], ?_⟩
  have h100 : (0 : ℚ) < 100 := by norm_num
  rw [div_le_one h100, le_div_iff₀ h100, zero_mul]
  constructor
  · rintro ⟨h0, h1⟩
    exact ⟨by exact_mod_cast h0, by exact_mod_cast h1⟩
  · rintro ⟨h0, h1⟩
    exact ⟨by exact_mod_cast h0, by exact_mod_cast h1⟩

/-- C5 witness: the amended theorem at the in-range percentage 70. -/
theorem C5_threshold_unbounded_witness :
    precentToThreshold "70" = some (((70 : Int) : ℚ) / 100) ∧
    ((0 : ℚ) ≤ ((70 : Int) : ℚ) / 100 ∧ ((70 : Int) : ℚ) / 100 ≤ 1 ↔
      0 ≤ (70 : Int) ∧ (70 : Int) ≤ 100) :=
  C5_threshold_unbounded "70" 70 rfl

/-! ## Claim C2: cleanup of staged files -/

/-- C2 refutation: on the example-processing error path the cleanup
guarantee fails. A valid-example upload in an unsupported format makes
the `try` body raise after staging; the handler answers 500 but unlinks
neither the staged example nor the already-staged document, so both
remain in transient storage when the response is produced. -/
theorem C2_staged_files_leak :
    validate ⟨"r", some docPdf, "70", some [exTxt], none⟩ okOracle
      = (.response 500 (errVerdict (msgValidExamplePrefix ++ msgNonePlusStr)),
         ⟨["doc.pdf", "ex.txt"], [.staged "doc.pdf", .staged "ex.txt", .extracted "ex.txt"]⟩) ∧
    (validate ⟨"r", some docPdf, "70", some [exTxt], none⟩ okOracle).2.files ≠ [] := by
  refine ⟨rfl, by decide⟩
